import Mathlib

/-!
Verification of the crop-recommender backend (`backend/main.py`).

The development shallowly embeds the Python module in Lean:

* Python floats are modelled as rationals (`ℚ`); `math.floor` is `Int.floor`
  and Python's banker's rounding `round(x, n)` is `pyRound1` / `pyRound2`.
* JSON payloads handled by the weather client are modelled by the inductive
  type `Json`, together with Python truthiness (`Json.truthy`) and the
  `dict.get` / `x or default` idioms used by the source.
* Mutable module state (`_weather_cache`, `_last_owm_call_ts`) is passed
  explicitly; `time.time()` is an explicit clock argument, and sleeping
  advances the clock.
* The single outbound HTTP request is modelled by a `provider` oracle
  mapping an attempt index to a `(status, body)` pair; the source performs
  exactly one request, which the embedding makes via `provider 0`.
  `raise HTTPException(status_code=502, ...)` is `Except.error 502`.
* Operations whose Python counterpart would raise a `TypeError` on
  ill-shaped JSON (iterating a non-list, `float` of a non-numeric value,
  comparing non-numeric temperatures) are modelled in `Option`, with `none`
  standing for such a runtime error.  All inputs used by the theorems below
  are well shaped, so this choice is never load-bearing.
-/

namespace CropRec

/-- A JSON value, as produced by `resp.json()` and consumed by the
aggregation and caching code. -/
inductive Json where
  | null
  | bool (b : Bool)
  | num (q : ℚ)
  | str (s : String)
  | arr (elems : List Json)
  | obj (fields : List (String × Json))

/-- Python truthiness of a JSON value: `None`, `False`, `0`, `""`, `[]` and
`{}` are falsy, everything else is truthy. -/
def Json.truthy : Json → Bool
  | .null => false
  | .bool b => b
  | .num q => decide (q ≠ 0)
  | .str s => decide (s ≠ "")
  | .arr l => !l.isEmpty
  | .obj l => !l.isEmpty

/-- A Python `dict.get(k)`: `none` models `None` for a missing key. -/
def dictGet (fields : List (String × Json)) (k : String) : Option Json :=
  fields.lookup k

/-- The Python idiom `v or dflt` where `v` is `d.get(k)`: the value unless
it is missing or falsy. -/
def pyOr (v : Option Json) (dflt : Json) : Json :=
  match v with
  | some j => if j.truthy then j else dflt
  | none => dflt

/-- View a JSON value as a dict; `none` models the `TypeError`/`AttributeError`
Python would raise when using dict operations on a non-dict. -/
def Json.asObj? : Json → Option (List (String × Json))
  | .obj fields => some fields
  | _ => none

/-- View a JSON value as a list; `none` models the `TypeError` Python would
raise when slicing or iterating a non-list. -/
def Json.asArr? : Json → Option (List Json)
  | .arr elems => some elems
  | _ => none

/-- Python `float(x)` on a JSON scalar.  Numbers and booleans convert;
other shapes are modelled as a runtime error (numeric strings, which
`float` would also accept, never occur in the payloads considered here). -/
def Json.asFloat? : Json → Option ℚ
  | .num q => some q
  | .bool b => some (if b then 1 else 0)
  | _ => none

/-- Python `round(x)` to an integer: round half to even. -/
def pyRound (q : ℚ) : ℤ :=
  if q - ⌊q⌋ < 1/2 then ⌊q⌋
  else if q - ⌊q⌋ > 1/2 then ⌊q⌋ + 1
  else if ⌊q⌋ % 2 = 0 then ⌊q⌋ else ⌊q⌋ + 1

/-- Python `round(x, 1)`. -/
def pyRound1 (q : ℚ) : ℚ := (pyRound (q * 10) : ℚ) / 10

/-- Python `round(x, 2)`. -/
def pyRound2 (q : ℚ) : ℚ := (pyRound (q * 100) : ℚ) / 100

/-- The dict returned by `aggregate_forecast`:
`{"min_temp": …, "max_temp": …, "precip_sum_mm": …}`.  A `none` temperature
models Python's `None`. -/
structure Summary where
  min_temp : Option ℚ
  max_temp : Option ℚ
  precip_sum_mm : ℚ
deriving DecidableEq

/-- One iteration of the loop in `aggregate_forecast`, over accumulator
`(temps, precip)`:

```python
main = it.get("main") or {}
if "temp" in main:
    temps.append(main["temp"])
precip += float((it.get("rain") or {}).get("3h", 0.0) or 0.0)
precip += float((it.get("snow") or {}).get("3h", 0.0) or 0.0)
```
-/
def aggStep (acc : List ℚ × ℚ) (it : Json) : Option (List ℚ × ℚ) := do
  let io ← it.asObj?
  let mo ← (pyOr (dictGet io "main") (Json.obj [])).asObj?
  let temps ← match dictGet mo "temp" with
    | some (.num t) => some (acc.1 ++ [t])
    | some _ => none
    | none => some acc.1
  let ro ← (pyOr (dictGet io "rain") (Json.obj [])).asObj?
  let rq ← (pyOr (some ((dictGet ro "3h").getD (Json.num 0))) (Json.num 0)).asFloat?
  let so ← (pyOr (dictGet io "snow") (Json.obj [])).asObj?
  let sq ← (pyOr (some ((dictGet so "3h").getD (Json.num 0))) (Json.num 0)).asFloat?
  some (temps, acc.2 + rq + sq)

/-- The tail of `aggregate_forecast` applied to the selected slots: run the
loop, then build the summary.  `min(temps) if temps else None` is exactly
`List.min?`. -/
def aggSlots (slots : List Json) : Option Summary := do
  let acc ← slots.foldlM aggStep (([] : List ℚ), (0 : ℚ))
  some ⟨acc.1.min?, acc.1.max?, pyRound1 acc.2⟩

/-- `aggregate_forecast(forecast, hours)` from `backend/main.py`.
`hours` is a nonnegative Python int, so `hours // 3` is `ℕ` division. -/
def aggregate_forecast (forecast : Json) (hours : ℕ) : Option Summary := do
  let fo ← forecast.asObj?
  let stepsJ := pyOr (dictGet fo "list") (Json.arr [])
  if stepsJ.truthy then do
    let steps ← stepsJ.asArr?
    aggSlots (steps.take (max 1 (hours / 3)))
  else
    some ⟨none, none, 0⟩

/-- A well-shaped forecast payload `{"list": [...]}` carrying the given
sample series. -/
def mkForecast (steps : List Json) : Json :=
  Json.obj [("list", Json.arr steps)]

/-- The module-level configuration read from the environment:
`OPENWEATHER_KEY`, `CACHE_TTL`, `OWM_MIN_INTERVAL`, `FORECAST_HOURS`. -/
structure Config where
  key : Option String
  cache_ttl : ℚ
  min_interval : ℚ
  forecast_hours : ℕ

/-- Truthiness of `OPENWEATHER_KEY` as tested by `if not OPENWEATHER_KEY`
(an unset variable is `None`, and an empty string is falsy too). -/
def Config.keyTruthy (cfg : Config) : Bool :=
  match cfg.key with
  | none => false
  | some s => decide (s ≠ "")

/-- A key of `_weather_cache`: `(kind, rounded lat, rounded lon)`. -/
abbrev CKey := String × ℚ × ℚ

/-- The `_weather_cache` dict, mapping a key to `(stored_at, payload)`. -/
abbrev Cache := CKey → Option (ℚ × Json)

/-- `_round_coord(x)` with the default `dp=2`:
`math.floor(x * 100 + 0.5) / 100`. -/
def _round_coord (x : ℚ) : ℚ :=
  (⌊x * 100 + 1/2⌋ : ℚ) / 100

/-- The cache key built by `_cache_get` / `_cache_put`. -/
def cacheKey (kind : String) (lat lon : ℚ) : CKey :=
  (kind, _round_coord lat, _round_coord lon)

/-- `_cache_get(kind, lat, lon)` at clock time `now`: returns the payload
if the entry is present and aged at most `ttl`, else pops any expired entry
and returns `None`.  The second component is the dict after the call. -/
def _cache_get (cache : Cache) (ttl now : ℚ) (kind : String) (lat lon : ℚ) :
    Option Json × Cache :=
  let key := cacheKey kind lat lon
  match cache key with
  | none => (none, cache)
  | some (ts, data) =>
      if now - ts ≤ ttl then (some data, cache)
      else (none, fun k => if k = key then none else cache k)

/-- `_cache_put(kind, lat, lon, data)` at clock time `now`. -/
def _cache_put (cache : Cache) (now : ℚ) (kind : String) (lat lon : ℚ) (data : Json) :
    Cache :=
  fun k => if k = cacheKey kind lat lon then some (now, data) else cache k

/-- `_respect_rate_limit()`: given the stored `_last_owm_call_ts` and the
current clock, sleep the remainder of `min_interval` if needed and return
the clock time at which the function returns (which is also the new value
stored in `_last_owm_call_ts`). -/
def _respect_rate_limit (minInterval lastCall now : ℚ) : ℚ :=
  if now - lastCall < minInterval then lastCall + minInterval else now

/-- The mutable module state threaded through `fetch_forecast`. -/
structure SysState where
  cache : Cache
  lastCall : ℚ

/-- The observable outcome of one `fetch_forecast` call: its return value
(or raised `HTTPException` status), how many provider requests, cache reads,
cache writes and rate-limiter acquisitions it performed, and the state and
clock after the call. -/
structure FetchOut where
  result : Except ℕ Json
  providerCalls : ℕ
  cacheReads : ℕ
  cacheWrites : ℕ
  limiterAcquires : ℕ
  state : SysState
  time : ℚ

/-- The cache-miss continuation of `fetch_forecast`: rate-limit, perform the
single `requests.get` (modelled by `provider 0`), raise `HTTPException(502)`
on any non-200 status, else cache and return the body.  The one cache read
already performed by the caller is accounted for in `cacheReads`. -/
def fetchNetwork (cfg : Config) (provider : ℕ → ℕ × Json) (st : SysState)
    (now lat lon : ℚ) : FetchOut :=
  let t1 := _respect_rate_limit cfg.min_interval st.lastCall now
  let resp := provider 0
  if resp.1 ≠ 200 then
    ⟨.error 502, 1, 1, 0, 1, ⟨st.cache, t1⟩, t1⟩
  else
    ⟨.ok resp.2, 1, 1, 1, 1, ⟨_cache_put st.cache t1 "forecast" lat lon resp.2, t1⟩, t1⟩

/-- `fetch_forecast(lat, lon)` from `backend/main.py`:

```python
if not OPENWEATHER_KEY:
    return {"list": []}
cached = _cache_get("forecast", lat, lon)
if cached:
    return cached
_respect_rate_limit()
resp = requests.get(url, params=params, timeout=10)
if resp.status_code != 200:
    raise HTTPException(status_code=502, detail="Error fetching forecast")
data = resp.json()
_cache_put("forecast", lat, lon, data)
return data
```
-/
def fetch_forecast (cfg : Config) (provider : ℕ → ℕ × Json) (st : SysState)
    (now lat lon : ℚ) : FetchOut :=
  if cfg.keyTruthy then
    let got := _cache_get st.cache cfg.cache_ttl now "forecast" lat lon
    let st1 : SysState := ⟨got.2, st.lastCall⟩
    match got.1 with
    | some d =>
        if d.truthy then ⟨.ok d, 0, 1, 0, 0, st1, now⟩
        else fetchNetwork cfg provider st1 now lat lon
    | none => fetchNetwork cfg provider st1 now lat lon
  else
    ⟨.ok (Json.obj [("list", Json.arr [])]), 0, 0, 0, 0, st, now⟩

/-- The request body of `POST /recommend`. -/
structure RecommendRequest where
  lat : ℚ
  lon : ℚ
  soil_type : String
  ph : ℚ
  season : Option String

/-- One entry of the static crop catalog. -/
structure Crop where
  name : String
  preferred_texture : String
  min_ph : ℚ
  max_ph : ℚ
  min_temp : ℚ
  max_temp : ℚ
  rain_min : ℚ
  rain_max : ℚ

def rice : Crop := ⟨"Rice", "loamy", 11/2, 7, 20, 35, 40, 180⟩
def wheat : Crop := ⟨"Wheat", "loamy", 6, 15/2, 10, 25, 15, 90⟩
def maize : Crop := ⟨"Maize", "loamy", 11/2, 15/2, 18, 32, 20, 120⟩
def millet : Crop := ⟨"Millet", "sandy", 5, 8, 18, 35, 5, 80⟩
def sorghum : Crop := ⟨"Sorghum", "sandy", 11/2, 8, 20, 38, 8, 100⟩
def pulses : Crop := ⟨"Pulses", "loamy", 6, 15/2, 15, 30, 8, 90⟩

/-- The `crops` list built inside `recommend`. -/
def crops : List Crop := [rice, wheat, maize, millet, sorghum, pulses]

/-- `str.lower()`, character by character (the catalog and request strings
are ASCII). -/
def lowerStr (s : String) : String := String.mk (s.data.map Char.toLower)

/-- `texture_score(field, pref)`. -/
def texture_score (field pref : String) : ℚ :=
  if lowerStr field = lowerStr pref then 1 else 1/2

/-- `ph_score(val, mn, mx)`. -/
def ph_score (val mn mx : ℚ) : ℚ :=
  let mid := (mn + mx) / 2
  let tol := (mx - mn) / 2 + 1/2
  max 0 (1 - |val - mid| / tol)

/-- `temp_overlap(fmin, fmax, cmin, cmax)`. -/
def temp_overlap (fmin fmax : Option ℚ) (cmin cmax : ℚ) : ℚ :=
  match fmin, fmax with
  | some fa, some fb =>
      let lo := max fa cmin
      let hi := min fb cmax
      let overlap := max 0 (hi - lo)
      let span := max 1 (cmax - cmin)
      min 1 (overlap / span)
  | _, _ => 0

/-- `rain_window(total, win)`. -/
def rain_window (total rmin rmax : ℚ) : ℚ :=
  if total ≤ rmin then max 0 (total / max 1 rmin)
  else if total ≥ rmax then max 0 (1 - (total - rmax) / max 1 rmax)
  else 1

/-- The `reasons` dict attached to each crop score. -/
structure Reasons where
  texture_match : ℚ
  ph_fit : ℚ
  forecast_temp_min_c : Option ℚ
  forecast_temp_max_c : Option ℚ
  temp_overlap : ℚ
  forecast_precip_mm : ℚ
  rain_window_fit : ℚ
deriving DecidableEq

/-- One element of the response of `POST /recommend`. -/
structure CropScore where
  crop : String
  score : ℚ
  reasons : Reasons
deriving DecidableEq

/-- The unrounded weighted sum `25*t_sc + 25*p_sc + 30*to_sc + 20*rw_sc`
computed for one crop. -/
def weightedSum (req : RecommendRequest) (agg : Summary) (c : Crop) : ℚ :=
  25 * texture_score req.soil_type c.preferred_texture
    + 25 * ph_score req.ph c.min_ph c.max_ph
    + 30 * temp_overlap agg.min_temp agg.max_temp c.min_temp c.max_temp
    + 20 * rain_window agg.precip_sum_mm c.rain_min c.rain_max

/-- The result dict appended for one crop in the loop of `recommend`. -/
def scoreOne (req : RecommendRequest) (agg : Summary) (c : Crop) : CropScore :=
  let t_sc := texture_score req.soil_type c.preferred_texture
  let p_sc := ph_score req.ph c.min_ph c.max_ph
  let to_sc := temp_overlap agg.min_temp agg.max_temp c.min_temp c.max_temp
  let rw_sc := rain_window agg.precip_sum_mm c.rain_min c.rain_max
  ⟨c.name, pyRound1 (25 * t_sc + 25 * p_sc + 30 * to_sc + 20 * rw_sc),
    ⟨pyRound2 t_sc, pyRound2 p_sc, agg.min_temp, agg.max_temp, pyRound2 to_sc,
      agg.precip_sum_mm, pyRound2 rw_sc⟩⟩

/-- The `results` list of `recommend`, in catalog order. -/
def rawResults (req : RecommendRequest) (agg : Summary) : List CropScore :=
  crops.map (scoreOne req agg)

/-- The sort key comparison of `sorted(results, key=lambda x: x["score"],
reverse=True)`: a Python stable descending sort keeps `a` before `b`
whenever `b.score ≤ a.score`. -/
def scoreLE (a b : CropScore) : Bool :=
  decide (b.score ≤ a.score)

/-- The scoring part of `recommend` (everything after the weather summary
is available): build the per-crop results and stable-sort them by
descending score. -/
def recommend_core (req : RecommendRequest) (agg : Summary) : List CropScore :=
  (rawResults req agg).mergeSort scoreLE

/-! ### Claim C2: how many leading samples the aggregator consumes -/

/-- A minimal forecast sample `{"main": {"temp": t}}`. -/
def tempSample (t : ℚ) : Json :=
  Json.obj [("main", Json.obj [("temp", Json.num t)])]

/-- Modelled from the spec: the sample count `ceil(horizonHours / 3)`
(minimum 1) that §4.5 says the aggregator takes. -/
def specNeed (hours : ℕ) : ℕ := max 1 ((hours + 2) / 3)

/-- C2 (amended): on a well-shaped series, `aggregate_forecast` aggregates
exactly the first `max 1 (hours / 3)` samples — floor division, not
`ceil(hours / 3)` — or fewer if the series is shorter; an empty series
yields the neutral summary, and at the default horizon of 72 hours exactly
24 leading samples are taken. -/
theorem aggregate_takes_floor_quota (s : List Json) (h : ℕ) :
    (s ≠ [] → aggregate_forecast (mkForecast s) h = aggSlots (s.take (max 1 (h / 3))))
    ∧ (s = [] → aggregate_forecast (mkForecast s) h = some ⟨none, none, 0⟩)
    ∧ (s ≠ [] → aggregate_forecast (mkForecast s) 72 = aggSlots (s.take 24)) := by
  refine ⟨fun hs => ?_, fun hs => ?_, fun hs => ?_⟩ <;>
    simp [aggregate_forecast, mkForecast, dictGet, pyOr, Json.truthy,
      Json.asObj?, Json.asArr?, List.lookup, hs]

/-- Witness for `aggregate_takes_floor_quota` at a singleton series and a
6-hour horizon. -/
theorem aggregate_takes_floor_quota_witness :
    aggregate_forecast (mkForecast [tempSample 10]) 6 = aggSlots [tempSample 10] := by
  have hw := (aggregate_takes_floor_quota [tempSample 10] 6).1 (List.cons_ne_nil _ _)
  simpa using hw

/-- C2 counterexample: at `horizonHours = 4` the claim prescribes
`ceil(4/3) = 2` leading samples, but the code aggregates only
`max 1 (4 // 3) = 1` of them, so the two results differ on a series whose
second sample changes the temperature range. -/
theorem aggregate_ceil_counterexample :
    aggregate_forecast (mkForecast [tempSample 10, tempSample 20]) 4
      ≠ aggSlots ([tempSample 10, tempSample 20].take (specNeed 4)) := by
  have h1 : aggregate_forecast (mkForecast [tempSample 10, tempSample 20]) 4
      = some ⟨some 10, some 10, 0⟩ := by
    simp [aggregate_forecast, mkForecast, dictGet, pyOr, Json.truthy, Json.asObj?,
      Json.asArr?, Json.asFloat?, aggSlots, aggStep, tempSample, List.lookup,
      pyRound1, pyRound, List.min?, List.max?]
  have h2 : aggSlots ([tempSample 10, tempSample 20].take (specNeed 4))
      = some ⟨some 10, some 20, 0⟩ := by
    simp [aggSlots, aggStep, tempSample, dictGet, pyOr, Json.truthy, Json.asObj?,
      Json.asFloat?, List.lookup, pyRound1, pyRound, List.min?, List.max?, specNeed]
    norm_num
  rw [h1, h2]
  simp

/-! ### Claim C3: stability of coordinate bucketing under perturbation -/

/-- Rounding is the identity on exact bucket centers perturbed by less than
half a bucket. -/
theorem round_coord_center (a : ℤ) (ε : ℚ) (h : |ε| < 5/1000) :
    _round_coord ((a : ℚ)/100 + ε) = _round_coord ((a : ℚ)/100) := by
  unfold _round_coord
  have h1 : ((a : ℚ)/100 + ε) * 100 + 1/2 = (a : ℚ) + (ε * 100 + 1/2) := by ring
  have h2 : ((a : ℚ)/100) * 100 + 1/2 = (a : ℚ) + (1/2 : ℚ) := by ring
  have habs := abs_lt.mp h
  have e1 : ⌊(a : ℚ) + (ε * 100 + 1/2)⌋ = a + ⌊ε * 100 + (1/2 : ℚ)⌋ := by
    rw [add_comm]
    rw [Int.floor_add_int]
    ring
  have e2 : ⌊(a : ℚ) + (1/2 : ℚ)⌋ = a + ⌊(1/2 : ℚ)⌋ := by
    rw [add_comm]
    rw [Int.floor_add_int]
    ring
  have z1 : ⌊ε * 100 + (1/2 : ℚ)⌋ = 0 := by
    rw [Int.floor_eq_zero_iff]
    constructor <;> [linarith [habs.1]; skip]
    · show ε * 100 + (1/2 : ℚ) < 1
      linarith [habs.2]
  have z2 : ⌊(1/2 : ℚ)⌋ = 0 := by norm_num
  rw [h1, h2, e1, e2, z1, z2]

/-- C3 (amended): when `lat` and `lon` are exact bucket centers (integer
multiples of 0.01), the bucket is unchanged by perturbing both coordinates
by any `ε` with `|ε| < 0.005`.  (The unrestricted claim is refuted by
`bucket_eps_counterexample`.) -/
theorem bucket_center_stable (kind : String) (a b : ℤ) (ε : ℚ) (h : |ε| < 5/1000) :
    cacheKey kind ((a : ℚ)/100 + ε) ((b : ℚ)/100 + ε)
      = cacheKey kind ((a : ℚ)/100) ((b : ℚ)/100) := by
  unfold cacheKey
  rw [round_coord_center a ε h, round_coord_center b ε h]

/-- Witness for `bucket_center_stable`: the bucket of `(1.00, 2.00)` is
unchanged by `ε = 0.004`. -/
theorem bucket_center_stable_witness :
    cacheKey "forecast" (((100 : ℤ) : ℚ)/100 + 4/1000) (((200 : ℤ) : ℚ)/100 + 4/1000)
      = cacheKey "forecast" (((100 : ℤ) : ℚ)/100) (((200 : ℤ) : ℚ)/100) :=
  bucket_center_stable "forecast" 100 200 (4/1000) (by rw [abs_lt]; norm_num)

/-- C3 counterexample: `ε = 0.004` satisfies `|ε| < 0.005`, yet the buckets
of `(0.004, 0.004)` and `(0.008, 0.008)` differ, refuting the claim as
stated for arbitrary coordinates. -/
theorem bucket_eps_counterexample :
    |(4/1000 : ℚ)| < 5/1000
    ∧ cacheKey "forecast" (4/1000) (4/1000)
        ≠ cacheKey "forecast" (4/1000 + 4/1000) (4/1000 + 4/1000) := by
  constructor
  · rw [abs_lt]; norm_num
  · simp only [cacheKey, _round_coord, ne_eq, Prod.mk.injEq, not_and]
    intro hkind hlat
    exfalso
    rw [show ((4:ℚ)/1000 * 100 + 1/2) = 9/10 by norm_num,
      show ((4:ℚ)/1000 + 4/1000) * 100 + 1/2 = 13/10 by norm_num] at hlat
    norm_num at hlat

/-! ### Claim C5: cache TTL semantics -/

/-- C5: a `put` followed by a `get` of the same key at time distance at
most the TTL returns exactly the stored payload; past the TTL the `get` is
a miss; and `put` overwrites whatever was stored before, stamping the
current time. -/
theorem cache_ttl_semantics (cache : Cache) (ttl t t' : ℚ) (kind : String)
    (lat lon : ℚ) (p : Json) :
    (t' - t ≤ ttl →
      (_cache_get (_cache_put cache t kind lat lon p) ttl t' kind lat lon).1 = some p)
    ∧ (ttl < t' - t →
      (_cache_get (_cache_put cache t kind lat lon p) ttl t' kind lat lon).1 = none)
    ∧ _cache_put cache t kind lat lon p (cacheKey kind lat lon) = some (t, p) := by
  refine ⟨fun hle => ?_, fun hgt => ?_, ?_⟩
  · simp [_cache_get, _cache_put, hle]
  · simp [_cache_get, _cache_put, not_le.mpr hgt]
  · simp [_cache_put]

/-- Witness for `cache_ttl_semantics` with the default TTL of 600s: a hit
exactly at the TTL boundary and a miss one second later. -/
theorem cache_ttl_semantics_witness :
    (_cache_get (_cache_put (fun _ => none) 0 "forecast" 1 2 (Json.num 7)) 600 600
        "forecast" 1 2).1 = some (Json.num 7)
    ∧ (_cache_get (_cache_put (fun _ => none) 0 "forecast" 1 2 (Json.num 7)) 600 601
        "forecast" 1 2).1 = none := by
  constructor
  · exact (cache_ttl_semantics (fun _ => none) 600 0 600 "forecast" 1 2
      (Json.num 7)).1 (by norm_num)
  · exact (cache_ttl_semantics (fun _ => none) 600 0 601 "forecast" 1 2
      (Json.num 7)).2.1 (by norm_num)

/-! ### Claim C4: degraded mode without a provider credential -/

/-- C4: with no (or an empty) provider credential, `fetch_forecast` returns
the empty stub `{"list": []}` at once — no provider call, no cache read or
write, no rate-limiter interaction, no state change, no elapsed time — and
aggregating that stub at any horizon yields the neutral summary
`(None, None, 0.0)`. -/
theorem no_key_degraded (cfg : Config) (provider : ℕ → ℕ × Json) (st : SysState)
    (now lat lon : ℚ) (hours : ℕ) (hk : cfg.keyTruthy = false) :
    fetch_forecast cfg provider st now lat lon
      = ⟨.ok (Json.obj [("list", Json.arr [])]), 0, 0, 0, 0, st, now⟩
    ∧ aggregate_forecast (Json.obj [("list", Json.arr [])]) hours
      = some ⟨none, none, 0⟩ := by
  constructor
  · simp [fetch_forecast, hk]
  · simp [aggregate_forecast, dictGet, pyOr, Json.truthy, Json.asObj?, List.lookup]

/-- Witness for `no_key_degraded` at a concrete unset credential. -/
theorem no_key_degraded_witness :
    fetch_forecast ⟨none, 600, 12/10, 72⟩ (fun _ => (200, Json.null))
        ⟨fun _ => none, 0⟩ 5 1 2
      = ⟨.ok (Json.obj [("list", Json.arr [])]), 0, 0, 0, 0, ⟨fun _ => none, 0⟩, 5⟩
    ∧ aggregate_forecast (Json.obj [("list", Json.arr [])]) 72
      = some ⟨none, none, 0⟩ :=
  no_key_degraded ⟨none, 600, 12/10, 72⟩ (fun _ => (200, Json.null))
    ⟨fun _ => none, 0⟩ 5 1 2 72 rfl

/-! ### Claims C1 and C10: the cache-miss network path -/

/-- On a cache miss (no entry, or an entry whose payload is falsy),
`fetch_forecast` with a configured credential runs the network
continuation. -/
theorem fetch_miss_network (cfg : Config) (provider : ℕ → ℕ × Json) (st : SysState)
    (now lat lon : ℚ) (hk : cfg.keyTruthy = true)
    (hmiss : ∀ d, (_cache_get st.cache cfg.cache_ttl now "forecast" lat lon).1 = some d →
      d.truthy = false) :
    fetch_forecast cfg provider st now lat lon
      = fetchNetwork cfg provider
          ⟨(_cache_get st.cache cfg.cache_ttl now "forecast" lat lon).2, st.lastCall⟩
          now lat lon := by
  simp only [fetch_forecast, hk, if_true]
  cases hgot : (_cache_get st.cache cfg.cache_ttl now "forecast" lat lon).1 with
  | none => simp [hgot]
  | some d => simp [hgot, hmiss d hgot]

/-- C1 (amended): when the credential is configured and the cache misses,
`fetch_forecast` makes exactly one provider attempt; any non-200 status —
including HTTP 429 — is surfaced immediately as `HTTPException(502)` with
no sleep, no backoff and no retry, and only a 200 response is parsed,
cached and returned. -/
theorem fetch_single_attempt (cfg : Config) (provider : ℕ → ℕ × Json) (st : SysState)
    (now lat lon : ℚ) (hk : cfg.keyTruthy = true)
    (hmiss : ∀ d, (_cache_get st.cache cfg.cache_ttl now "forecast" lat lon).1 = some d →
      d.truthy = false) :
    (fetch_forecast cfg provider st now lat lon).providerCalls = 1
    ∧ (fetch_forecast cfg provider st now lat lon).result
        = (if (provider 0).1 = 200 then .ok (provider 0).2 else .error 502)
    ∧ ((provider 0).1 ≠ 200 → (fetch_forecast cfg provider st now lat lon).cacheWrites = 0)
    ∧ ((provider 0).1 = 200 → (fetch_forecast cfg provider st now lat lon).cacheWrites = 1) := by
  rw [fetch_miss_network cfg provider st now lat lon hk hmiss]
  unfold fetchNetwork
  by_cases hs : (provider 0).1 = 200 <;> simp [hs]

/-- Witness for `fetch_single_attempt`: a provider answering 200 on an
empty cache. -/
theorem fetch_single_attempt_witness :
    (fetch_forecast ⟨some "k", 600, 12/10, 72⟩ (fun _ => (200, Json.num 7))
        ⟨fun _ => none, 0⟩ 0 1 2).providerCalls = 1
    ∧ (fetch_forecast ⟨some "k", 600, 12/10, 72⟩ (fun _ => (200, Json.num 7))
        ⟨fun _ => none, 0⟩ 0 1 2).result = .ok (Json.num 7) := by
  have h := fetch_single_attempt ⟨some "k", 600, 12/10, 72⟩ (fun _ => (200, Json.num 7))
    ⟨fun _ => none, 0⟩ 0 1 2 (by simp [Config.keyTruthy])
    (by intro d hd; simp [_cache_get] at hd)
  exact ⟨h.1, by rw [h.2.1]; simp⟩

/-- A provider that answers HTTP 429 to the first attempt and 200 to any
later attempt. -/
def provider429 : ℕ → ℕ × Json :=
  fun n => if n = 0 then (429, Json.null) else (200, mkForecast [tempSample 10])

/-- C1 counterexample: against a provider whose first answer is HTTP 429
and whose second answer would be a successful 200, `fetch_forecast` does
not retry: it makes exactly one attempt and surfaces the failure to the
caller as `HTTPException(502)`, contradicting the claimed
retry-with-backoff policy. -/
theorem fetch_no_retry_counterexample :
    (fetch_forecast ⟨some "k", 600, 12/10, 72⟩ provider429
        ⟨fun _ => none, 0⟩ 0 1 2).result = .error 502
    ∧ (fetch_forecast ⟨some "k", 600, 12/10, 72⟩ provider429
        ⟨fun _ => none, 0⟩ 0 1 2).providerCalls = 1 := by
  constructor <;>
    simp [fetch_forecast, fetchNetwork, _cache_get, Config.keyTruthy, provider429,
      _respect_rate_limit]

/-- C10: an unexpired cache entry whose payload is falsy (such as the empty
JSON object `{}`) is treated by `fetch_forecast` exactly like a miss: the
rate limiter is consulted and a fresh provider call is made, instead of the
cached payload being returned. -/
theorem falsy_cache_refetch (cfg : Config) (provider : ℕ → ℕ × Json) (st : SysState)
    (now lat lon ts : ℚ) (d : Json) (hk : cfg.keyTruthy = true)
    (hentry : st.cache (cacheKey "forecast" lat lon) = some (ts, d))
    (hfresh : now - ts ≤ cfg.cache_ttl)
    (hfalsy : d.truthy = false) :
    (fetch_forecast cfg provider st now lat lon).providerCalls = 1
    ∧ (fetch_forecast cfg provider st now lat lon).limiterAcquires = 1
    ∧ (fetch_forecast cfg provider st now lat lon).result
        = (if (provider 0).1 = 200 then .ok (provider 0).2 else .error 502) := by
  have hmiss : ∀ e, (_cache_get st.cache cfg.cache_ttl now "forecast" lat lon).1 = some e →
      e.truthy = false := by
    intro e he
    simp [_cache_get, hentry, hfresh] at he
    rw [← he]
    exact hfalsy
  rw [fetch_miss_network cfg provider st now lat lon hk hmiss]
  unfold fetchNetwork
  by_cases hs : (provider 0).1 = 200 <;> simp [hs]

/-- Witness for `falsy_cache_refetch`: a fresh cached `{}` still triggers a
provider call. -/
theorem falsy_cache_refetch_witness :
    (fetch_forecast ⟨some "k", 600, 12/10, 72⟩ (fun _ => (200, Json.num 3))
        ⟨fun k => if k = cacheKey "forecast" 1 2 then some (0, Json.obj []) else none, 0⟩
        10 1 2).providerCalls = 1
    ∧ (fetch_forecast ⟨some "k", 600, 12/10, 72⟩ (fun _ => (200, Json.num 3))
        ⟨fun k => if k = cacheKey "forecast" 1 2 then some (0, Json.obj []) else none, 0⟩
        10 1 2).limiterAcquires = 1 := by
  have h := falsy_cache_refetch ⟨some "k", 600, 12/10, 72⟩ (fun _ => (200, Json.num 3))
    ⟨fun k => if k = cacheKey "forecast" 1 2 then some (0, Json.obj []) else none, 0⟩
    10 1 2 0 (Json.obj []) (by simp [Config.keyTruthy]) (by simp) (by norm_num) rfl
  exact ⟨h.1, h.2.1⟩

/-! ### Claim C8: rain-window sub-score shape -/

/-- The rain-window sub-score, case by case, for any window with
`1 ≤ rmin ≤ rmax` (every catalog window satisfies this). -/
theorem rain_window_cases (t rmin rmax : ℚ) (h1 : 1 ≤ rmin) (h2 : rmin ≤ rmax) :
    rain_window rmin rmin rmax = 1
    ∧ (rmin ≤ t → t ≤ rmax → rain_window t rmin rmax = 1)
    ∧ (0 ≤ t → t ≤ rmin → rain_window t rmin rmax = t / rmin)
    ∧ (rmax ≤ t → rain_window t rmin rmax = max 0 (1 - (t - rmax) / rmax)) := by
  have hminpos : (0:ℚ) < rmin := lt_of_lt_of_le one_pos h1
  have hmaxpos : (0:ℚ) < rmax := lt_of_lt_of_le hminpos h2
  have hmax1 : max 1 rmin = rmin := max_eq_right h1
  have hmax2 : max 1 rmax = rmax := max_eq_right (h1.trans h2)
  have hat : rain_window rmin rmin rmax = 1 := by
    unfold rain_window
    rw [if_pos le_rfl, hmax1, div_self (ne_of_gt hminpos)]
    exact max_eq_right zero_le_one
  refine ⟨hat, fun hlo hhi => ?_, fun h0 hle => ?_, fun hge => ?_⟩
  · rcases eq_or_lt_of_le hlo with heq | hlt
    · rw [← heq]
      exact hat
    · unfold rain_window
      rw [if_neg (not_le.mpr hlt)]
      rcases eq_or_lt_of_le hhi with heq2 | hlt2
      · rw [if_pos (le_of_eq heq2.symm), heq2, hmax2, sub_self, zero_div, sub_zero]
        exact max_eq_right zero_le_one
      · rw [if_neg (not_le.mpr hlt2)]
  · unfold rain_window
    rw [if_pos hle, hmax1]
    exact max_eq_right (div_nonneg h0 (le_of_lt hminpos))
  · unfold rain_window
    by_cases hA : t ≤ rmin
    · have htr : t = rmin := le_antisymm hA ((h2.trans hge))
      have hrr : rmin = rmax := le_antisymm h2 (htr ▸ hge)
      rw [if_pos hA, hmax1, htr, hrr, div_self (ne_of_gt hmaxpos), sub_self, zero_div,
        sub_zero]
    · rw [if_neg hA, if_pos hge, hmax2]

/-- C8: for every catalog crop, precipitation exactly at the window's lower
bound scores 1.0 (the boundary is inclusive); inside the window the
sub-score is 1.0; below the low bound it is the linear ramp
`total / rain_min` (0 toward 1); above the high bound it is the linear
decay `1 - (total - rain_max) / rain_max` floored at 0. -/
theorem rain_window_piecewise (c : Crop) (hc : c ∈ crops) (t : ℚ) :
    rain_window c.rain_min c.rain_min c.rain_max = 1
    ∧ (c.rain_min ≤ t → t ≤ c.rain_max → rain_window t c.rain_min c.rain_max = 1)
    ∧ (0 ≤ t → t ≤ c.rain_min → rain_window t c.rain_min c.rain_max = t / c.rain_min)
    ∧ (c.rain_max ≤ t →
        rain_window t c.rain_min c.rain_max = max 0 (1 - (t - c.rain_max) / c.rain_max)) := by
  have hb : 1 ≤ c.rain_min ∧ c.rain_min ≤ c.rain_max := by
    simp only [crops, List.mem_cons, List.not_mem_nil, or_false] at hc
    rcases hc with rfl | rfl | rfl | rfl | rfl | rfl <;>
      constructor <;> norm_num [rice, wheat, maize, millet, sorghum, pulses]
  exact rain_window_cases t c.rain_min c.rain_max hb.1 hb.2

/-- Witness for `rain_window_piecewise` at Rice: the lower boundary 40mm
scores 1.0, and so does 100mm inside the window. -/
theorem rain_window_piecewise_witness :
    rain_window 40 40 180 = 1 ∧ rain_window 100 40 180 = 1 := by
  have hmem : rice ∈ crops := by simp [crops]
  constructor
  · exact (rain_window_piecewise rice hmem 40).1
  · exact (rain_window_piecewise rice hmem 100).2.1 (by norm_num [rice]) (by norm_num [rice])

/-! ### Claims C6 and C9: the ranked result list -/

theorem scoreLE_trans : ∀ (a b c : CropScore), scoreLE a b → scoreLE b c → scoreLE a c := by
  intro a b c hab hbc
  simp only [scoreLE, decide_eq_true_eq] at *
  exact le_trans hbc hab

theorem scoreLE_total : ∀ (a b : CropScore), scoreLE a b || scoreLE b a := by
  intro a b
  simp only [scoreLE, Bool.or_eq_true, decide_eq_true_eq]
  exact le_total b.score a.score

/-- C6: the scoring stage always succeeds and returns the per-crop results
sorted by descending (rounded) score; the sort is a permutation of the
catalog-ordered results, and any two entries with equal scores keep their
catalog order (stability). -/
theorem recommend_sorted_stable (req : RecommendRequest) (agg : Summary) :
    (recommend_core req agg).Sorted (fun a b => b.score ≤ a.score)
    ∧ (recommend_core req agg).Perm (rawResults req agg)
    ∧ (∀ a b : CropScore, a.score = b.score → [a, b].Sublist (rawResults req agg) →
        [a, b].Sublist (recommend_core req agg))
    ∧ (recommend_core req agg).length = 6 := by
  refine ⟨?_, List.mergeSort_perm _ _, fun a b hs hsub => ?_, ?_⟩
  · have h := List.sorted_mergeSort scoreLE_trans scoreLE_total (rawResults req agg)
    exact h.imp fun hab => by simpa [scoreLE] using hab
  · exact List.pair_sublist_mergeSort scoreLE_trans scoreLE_total
      (by simp [scoreLE, hs]) hsub
  · rw [recommend_core, List.length_mergeSort]
    simp [rawResults, crops]

/-- Witness for `recommend_sorted_stable`: with degraded weather and
`ph = 6.5` on loamy soil, Wheat and Pulses score equally (45.0), and the
Wheat entry stays before the Pulses entry in the output, as in the
catalog. -/
theorem recommend_sorted_stable_witness :
    [scoreOne ⟨0, 0, "loamy", 13/2, none⟩ ⟨none, none, 0⟩ wheat,
      scoreOne ⟨0, 0, "loamy", 13/2, none⟩ ⟨none, none, 0⟩ pulses].Sublist
      (recommend_core ⟨0, 0, "loamy", 13/2, none⟩ ⟨none, none, 0⟩) := by
  apply (recommend_sorted_stable ⟨0, 0, "loamy", 13/2, none⟩ ⟨none, none, 0⟩).2.2.1
  · have hw : rain_window 0 15 90 = 0 := by
      unfold rain_window
      rw [if_pos (by norm_num : (0:ℚ) ≤ 15)]
      simp
    have hp : rain_window 0 8 90 = 0 := by
      unfold rain_window
      rw [if_pos (by norm_num : (0:ℚ) ≤ 8)]
      simp
    simp only [scoreOne, wheat, pulses, hw, hp]
    rfl
  · simp only [rawResults, crops, List.map_cons, List.map_nil]
    exact .cons _ (.cons₂ _ (.cons _ (.cons _ (.cons _ (.cons₂ _ .slnil)))))

/-- C9: the scoring stage always returns exactly six entries, one per
catalog crop — Rice, Wheat, Maize, Millet, Sorghum and Pulses — for every
request and weather summary. -/
theorem recommend_full_catalog (req : RecommendRequest) (agg : Summary) :
    ((recommend_core req agg).map CropScore.crop).Perm
        ["Rice", "Wheat", "Maize", "Millet", "Sorghum", "Pulses"]
    ∧ (recommend_core req agg).length = 6 := by
  have hperm : (recommend_core req agg).Perm (rawResults req agg) :=
    List.mergeSort_perm (rawResults req agg) scoreLE
  constructor
  · have hmap := hperm.map CropScore.crop
    have hnames : (rawResults req agg).map CropScore.crop
        = ["Rice", "Wheat", "Maize", "Millet", "Sorghum", "Pulses"] := by
      simp [rawResults, crops, scoreOne, rice, wheat, maize, millet, sorghum, pulses]
    exact hnames ▸ hmap
  · rw [recommend_core, List.length_mergeSort]
    simp [rawResults, crops]

/-! ### Claim C7: score structure and bounds -/

/-- A value lying in the unit interval. -/
def unit01 (q : ℚ) : Prop := 0 ≤ q ∧ q ≤ 1

theorem texture_score_unit (f p : String) : unit01 (texture_score f p) := by
  unfold unit01 texture_score
  split_ifs <;> norm_num

theorem ph_score_unit (v mn mx : ℚ) (h : mn ≤ mx) : unit01 (ph_score v mn mx) := by
  unfold unit01 ph_score
  have htol : (0:ℚ) < (mx - mn) / 2 + 1/2 := by linarith
  refine ⟨le_max_left 0 _, max_le (by norm_num) ?_⟩
  have habs : 0 ≤ |v - (mn + mx) / 2| / ((mx - mn) / 2 + 1/2) :=
    div_nonneg (abs_nonneg _) (le_of_lt htol)
  linarith

theorem temp_overlap_unit (fmin fmax : Option ℚ) (cmin cmax : ℚ) :
    unit01 (temp_overlap fmin fmax cmin cmax) := by
  unfold unit01 temp_overlap
  cases fmin with
  | none => norm_num
  | some fa =>
    cases fmax with
    | none => norm_num
    | some fb =>
      have hspan : (0:ℚ) < max 1 (cmax - cmin) := lt_of_lt_of_le one_pos (le_max_left 1 _)
      refine ⟨le_min zero_le_one ?_, min_le_left 1 _⟩
      exact div_nonneg (le_max_left 0 _) (le_of_lt hspan)

theorem rain_window_unit (t rmin rmax : ℚ) : unit01 (rain_window t rmin rmax) := by
  unfold unit01 rain_window
  split_ifs with h1 h2
  · refine ⟨le_max_left 0 _, max_le zero_le_one ?_⟩
    have hpos : (0:ℚ) < max 1 rmin := lt_of_lt_of_le one_pos (le_max_left 1 rmin)
    rw [div_le_one hpos]
    exact h1.trans (le_max_right 1 rmin)
  · refine ⟨le_max_left 0 _, max_le zero_le_one ?_⟩
    have hpos : (0:ℚ) < max 1 rmax := lt_of_lt_of_le one_pos (le_max_left 1 rmax)
    have hnn : 0 ≤ (t - rmax) / max 1 rmax :=
      div_nonneg (by linarith) (le_of_lt hpos)
    linarith
  · norm_num

theorem pyRound_cases (q : ℚ) : pyRound q = ⌊q⌋ ∨ pyRound q = ⌊q⌋ + 1 := by
  unfold pyRound
  split_ifs <;> simp

theorem le_pyRound (n : ℤ) (q : ℚ) (h : (n : ℚ) ≤ q) : n ≤ pyRound q := by
  have hf : n ≤ ⌊q⌋ := Int.le_floor.mpr h
  rcases pyRound_cases q with he | he <;> rw [he] <;> omega

theorem pyRound_le (q : ℚ) (n : ℤ) (h : q ≤ (n : ℚ)) : pyRound q ≤ n := by
  have hf : ⌊q⌋ ≤ n := by
    have := Int.floor_mono h
    rwa [Int.floor_intCast] at this
  rcases lt_or_eq_of_le hf with hlt | heq
  · rcases pyRound_cases q with he | he <;> rw [he] <;> omega
  · have hqn : q = (n : ℚ) := le_antisymm h (by rw [← heq]; exact Int.floor_le q)
    have hcond : q - (⌊q⌋ : ℚ) < 1/2 := by
      rw [heq, hqn]
      norm_num
    unfold pyRound
    rw [if_pos hcond, heq]

theorem pyRound1_bounds (q : ℚ) (h0 : 0 ≤ q) (h100 : q ≤ 100) :
    0 ≤ pyRound1 q ∧ pyRound1 q ≤ 100 := by
  unfold pyRound1
  have h1 : (0:ℤ) ≤ pyRound (q * 10) := le_pyRound 0 (q * 10) (by push_cast; linarith)
  have h2 : pyRound (q * 10) ≤ (1000:ℤ) := pyRound_le (q * 10) 1000 (by push_cast; linarith)
  constructor
  · exact div_nonneg (by exact_mod_cast h1) (by norm_num)
  · rw [div_le_iff₀ (by norm_num : (0:ℚ) < 10)]
    calc ((pyRound (q * 10) : ℤ) : ℚ) ≤ ((1000:ℤ) : ℚ) := by exact_mod_cast h2
      _ = 100 * 10 := by norm_num

/-- C7 (amended): in the forecast variant, every returned crop score is the
weighted sum `25·texture + 25·pH + 30·temperature + 20·rain` of sub-scores
each in [0,1], **rounded to one decimal** (Python `round(score, 1)`), and
therefore lies in [0,100].  (The claim that the returned score equals the
unrounded weighted sum exactly is refuted by
`score_rounding_counterexample`.) -/
theorem score_weighted_rounded (req : RecommendRequest) (agg : Summary) (cs : CropScore)
    (h : cs ∈ recommend_core req agg) :
    (∃ c ∈ crops, cs = scoreOne req agg c
        ∧ cs.score = pyRound1 (weightedSum req agg c)
        ∧ unit01 (texture_score req.soil_type c.preferred_texture)
        ∧ unit01 (ph_score req.ph c.min_ph c.max_ph)
        ∧ unit01 (temp_overlap agg.min_temp agg.max_temp c.min_temp c.max_temp)
        ∧ unit01 (rain_window agg.precip_sum_mm c.rain_min c.rain_max))
    ∧ 0 ≤ cs.score ∧ cs.score ≤ 100 := by
  have hmem : cs ∈ rawResults req agg := by
    rw [recommend_core] at h
    exact List.mem_mergeSort.mp h
  rw [rawResults] at hmem
  obtain ⟨c, hc, hcs⟩ := List.mem_map.mp hmem
  have hph : c.min_ph ≤ c.max_ph := by
    simp only [crops, List.mem_cons, List.not_mem_nil, or_false] at hc
    rcases hc with rfl | rfl | rfl | rfl | rfl | rfl <;>
      norm_num [rice, wheat, maize, millet, sorghum, pulses]
  have ht := texture_score_unit req.soil_type c.preferred_texture
  have hp := ph_score_unit req.ph c.min_ph c.max_ph hph
  have hto := temp_overlap_unit agg.min_temp agg.max_temp c.min_temp c.max_temp
  have hrw := rain_window_unit agg.precip_sum_mm c.rain_min c.rain_max
  have hscore : cs.score = pyRound1 (weightedSum req agg c) := by
    rw [← hcs]
    simp [scoreOne, weightedSum]
  have hws : 0 ≤ weightedSum req agg c ∧ weightedSum req agg c ≤ 100 := by
    unfold weightedSum
    obtain ⟨t0, t1⟩ := ht
    obtain ⟨p0, p1⟩ := hp
    obtain ⟨o0, o1⟩ := hto
    obtain ⟨r0, r1⟩ := hrw
    constructor <;> linarith
  have hb := pyRound1_bounds _ hws.1 hws.2
  exact ⟨⟨c, hc, hcs.symm, hscore, ht, hp, hto, hrw⟩,
    hscore ▸ hb.1, hscore ▸ hb.2⟩

/-- Witness for `score_weighted_rounded` at the Rice entry of a concrete
degraded-weather request. -/
theorem score_weighted_rounded_witness :
    0 ≤ (scoreOne ⟨0, 0, "loamy", 13/2, none⟩ ⟨none, none, 0⟩ rice).score
    ∧ (scoreOne ⟨0, 0, "loamy", 13/2, none⟩ ⟨none, none, 0⟩ rice).score ≤ 100 := by
  have hmem : scoreOne ⟨0, 0, "loamy", 13/2, none⟩ ⟨none, none, 0⟩ rice
      ∈ recommend_core ⟨0, 0, "loamy", 13/2, none⟩ ⟨none, none, 0⟩ := by
    rw [recommend_core]
    exact List.mem_mergeSort.mpr (by simp [rawResults, crops])
  have h := score_weighted_rounded ⟨0, 0, "loamy", 13/2, none⟩ ⟨none, none, 0⟩ _ hmem
  exact ⟨h.2.1, h.2.2⟩

/-- C7 counterexample: for soil "clay" and pH 6.251 with degraded weather,
the Rice entry is returned with score 37.5, while its weighted sum is
37.48: the returned score is the rounded weighted sum, not the weighted
sum itself. -/
theorem score_rounding_counterexample :
    scoreOne ⟨0, 0, "clay", 6251/1000, none⟩ ⟨none, none, 0⟩ rice
        ∈ recommend_core ⟨0, 0, "clay", 6251/1000, none⟩ ⟨none, none, 0⟩
    ∧ (scoreOne ⟨0, 0, "clay", 6251/1000, none⟩ ⟨none, none, 0⟩ rice).score = 375/10
    ∧ weightedSum ⟨0, 0, "clay", 6251/1000, none⟩ ⟨none, none, 0⟩ rice = 3748/100
    ∧ (375/10 : ℚ) ≠ 3748/100 := by
  have htex : texture_score "clay" "loamy" = 1/2 := by
    unfold texture_score
    rw [if_neg (by decide : ¬ (lowerStr "clay" = lowerStr "loamy"))]
  have hphv : ph_score (6251/1000) (11/2) 7 = 1249/1250 := by
    show max 0 (1 - |6251/1000 - (11/2 + 7)/2| / ((7 - 11/2)/2 + 1/2)) = 1249/1250
    rw [show ((11:ℚ)/2 + 7)/2 = 25/4 by norm_num,
      show ((6251:ℚ)/1000 - 25/4) = 1/1000 by norm_num,
      abs_of_pos (by norm_num : (0:ℚ) < 1/1000),
      show (((7:ℚ) - 11/2)/2 + 1/2) = 5/4 by norm_num,
      max_eq_right (by norm_num : (0:ℚ) ≤ 1 - (1/1000)/(5/4))]
    norm_num
  have hrn : rain_window 0 40 180 = 0 := by
    unfold rain_window
    rw [if_pos (by norm_num : (0:ℚ) ≤ 40)]
    simp
  have hws : weightedSum ⟨0, 0, "clay", 6251/1000, none⟩ ⟨none, none, 0⟩ rice
      = 3748/100 := by
    unfold weightedSum
    simp only [rice]
    rw [htex, hphv, hrn]
    norm_num [temp_overlap]
  refine ⟨?_, ?_, hws, by norm_num⟩
  · rw [recommend_core]
    exact List.mem_mergeSort.mpr (by simp [rawResults, crops])
  · have hsc : (scoreOne ⟨0, 0, "clay", 6251/1000, none⟩ ⟨none, none, 0⟩ rice).score
        = pyRound1 (weightedSum ⟨0, 0, "clay", 6251/1000, none⟩ ⟨none, none, 0⟩ rice) := by
      simp [scoreOne, weightedSum]
    rw [hsc, hws]
    unfold pyRound1 pyRound
    rw [show ((3748:ℚ)/100 * 10) = 1874/5 by norm_num]
    rw [show ⌊(1874/5 : ℚ)⌋ = 374 by norm_num]
    rw [if_neg (by norm_num), if_pos (by norm_num)]
    norm_num

end CropRec
